import Mathlib

/-!
Verification development for the iot-oracle telemetry integrity pipeline.

The definitions below are a shallow embedding of the TypeScript sources:

* `src/model/telemetry.ts` — input normalization (`normalizeNumber`,
  `normalizeTelemetry`, `clampValues`) and canonical row hashing
  (`generateRowHash`), and the `MerkleTree` class (constructor sort,
  `buildTree`, `getRoot`, `getProof`, `verifyProof`) with its helpers
  `generateMerkleRoot` / `generateMerkleProof`;
* `src/util/index.ts` — `sum`, `getDayStart`, `getDayEnd`, `retryWithBackoff`;
* `src/aggregate/index.ts` — `AggregationService.aggregateDaily`;
* `src/anchor/index.ts` — `AnchorService.anchorDigest`;
* `src/api/admin.ts` — the POST /v1/anchor route body.

Modelling conventions:

* JavaScript numbers are modelled as exact rationals (`ℚ`).  All numeric
  claims under scrutiny concern decimal rounding, clamping and the exact
  product/sum/division formulas; none depends on binary floating point
  artifacts.  `Number.prototype.toFixed` is modelled as exact decimal
  rounding to the nearest (`round`); at the precisions used (1 to 3
  decimal places) an exact tie is not representable in a binary double,
  so the model agrees with the source on all reachable inputs.
* `Number.prototype.toString` (shortest round-trip decimal) is modelled by
  `numToString`: the exact decimal expansion with trailing zeros removed,
  which is the double-to-string result for the terminating decimals that
  `normalizeNumber` produces.
* `Date` values are kept in the two forms the code actually uses: the
  canonical ISO-8601 UTC string with millisecond precision (row hashing),
  and the epoch-millisecond integer (range queries, `getDayStart`).
  `new Date(s).toISOString()` is the identity on already canonical input
  strings, which is how `normalizeTelemetry` receives them.
* The Prisma store is an explicit record of sites, telemetry rows and
  daily digests; `await` sequencing becomes ordinary function composition
  and the external anchor adapter becomes an oracle function giving the
  outcome of each submission attempt.
* SHA-256 (createHash with algorithm sha256 over UTF-8 bytes, hex output) is
  implemented bit-for-bit from FIPS 180-4 on `Nat`.
-/

namespace IotOracle

/-! ## SHA-256 (FIPS 180-4), as used by crypto.createHash -/

def w32 (n : Nat) : Nat := n % 4294967296

def rotr32 (k x : Nat) : Nat := w32 ((x >>> k) ||| (x <<< (32 - k)))

def shaCh (x y z : Nat) : Nat := (x &&& y) ^^^ ((4294967295 ^^^ x) &&& z)

def shaMaj (x y z : Nat) : Nat := (x &&& y) ^^^ (x &&& z) ^^^ (y &&& z)

def bigSigma0 (x : Nat) : Nat := rotr32 2 x ^^^ rotr32 13 x ^^^ rotr32 22 x

def bigSigma1 (x : Nat) : Nat := rotr32 6 x ^^^ rotr32 11 x ^^^ rotr32 25 x

def smallSigma0 (x : Nat) : Nat := rotr32 7 x ^^^ rotr32 18 x ^^^ (x >>> 3)

def smallSigma1 (x : Nat) : Nat := rotr32 17 x ^^^ rotr32 19 x ^^^ (x >>> 10)

def shaK : List Nat :=
  [1116352408, 1899447441, 3049323471, 3921009573, 961987163, 1508970993, 2453635748, 2870763221,
   3624381080, 310598401, 607225278, 1426881987, 1925078388, 2162078206, 2614888103, 3248222580,
   3835390401, 4022224774, 264347078, 604807628, 770255983, 1249150122, 1555081692, 1996064986,
   2554220882, 2821834349, 2952996808, 3210313671, 3336571891, 3584528711, 113926993, 338241895,
   666307205, 773529912, 1294757372, 1396182291, 1695183700, 1986661051, 2177026350, 2456956037,
   2730485921, 2820302411, 3259730800, 3345764771, 3516065817, 3600352804, 4094571909, 275423344,
   430227734, 506948616, 659060556, 883997877, 958139571, 1322822218, 1537002063, 1747873779,
   1955562222, 2024104815, 2227730452, 2361852424, 2428436474, 2756734187, 3204031479, 3329325298]

def shaH0 : List Nat :=
  [1779033703, 3144134277, 1013904242, 2773480762, 1359893119, 2600822924, 528734635, 1541459225]

def beBytes (k n : Nat) : List Nat :=
  (List.range k).reverse.map (fun i => (n >>> (8 * i)) % 256)

def padMessage (msg : List Nat) : List Nat :=
  let l := msg.length
  let zeros := (55 + 64 - (l % 64)) % 64
  msg ++ 128 :: (List.replicate zeros 0 ++ beBytes 8 (8 * l))

def toWords : List Nat → List Nat
  | a :: b :: c :: d :: rest => (((a * 256 + b) * 256 + c) * 256 + d) :: toWords rest
  | _ => []

def chunkWords : List Nat → List (List Nat)
  | w0 :: w1 :: w2 :: w3 :: w4 :: w5 :: w6 :: w7 ::
    w8 :: w9 :: w10 :: w11 :: w12 :: w13 :: w14 :: w15 :: rest =>
    [w0, w1, w2, w3, w4, w5, w6, w7, w8, w9, w10, w11, w12, w13, w14, w15] :: chunkWords rest
  | [] => []
  | ws => [ws]

def scheduleAux : Nat → List Nat → List Nat
  | 0, acc => acc.reverse
  | n + 1, acc =>
    let t := w32 (smallSigma1 (acc.getD 1 0) + acc.getD 6 0 +
      smallSigma0 (acc.getD 14 0) + acc.getD 15 0)
    scheduleAux n (t :: acc)

def schedule (block : List Nat) : List Nat := scheduleAux 48 block.reverse

def compressRound (st : List Nat) (kw : Nat × Nat) : List Nat :=
  match st with
  | [a, b, c, d, e, f, g, h] =>
    let t1 := w32 (h + bigSigma1 e + shaCh e f g + kw.1 + kw.2)
    let t2 := w32 (bigSigma0 a + shaMaj a b c)
    [w32 (t1 + t2), a, b, c, w32 (d + t1), e, f, g]
  | _ => st

def processBlock (h : List Nat) (block : List Nat) : List Nat :=
  let ws := schedule block
  let st := (shaK.zip ws).foldl compressRound h
  (h.zip st).map (fun p => w32 (p.1 + p.2))

def sha256Words (msg : List Nat) : List Nat :=
  (chunkWords (toWords (padMessage msg))).foldl processBlock shaH0

def utf8Char (c : Char) : List Nat :=
  let n := c.toNat
  if n < 128 then [n]
  else if n < 2048 then [192 + n / 64, 128 + n % 64]
  else if n < 65536 then [224 + n / 4096, 128 + (n / 64) % 64, 128 + n % 64]
  else [240 + n / 262144, 128 + (n / 4096) % 64, 128 + (n / 64) % 64, 128 + n % 64]

def utf8Bytes (s : String) : List Nat := (s.data.map utf8Char).flatten

def hexDigit (n : Nat) : Char := if n < 10 then Char.ofNat (48 + n) else Char.ofNat (87 + n)

def word32Hex (n : Nat) : String :=
  String.mk ((List.range 8).reverse.map (fun i => hexDigit ((n >>> (4 * i)) % 16)))

/-- Lowercase-hex SHA-256 of the UTF-8 bytes of a string:
crypto.createHash applied to the string, digest rendered as hex. -/
def sha256hex (s : String) : String := String.join ((sha256Words (utf8Bytes s)).map word32Hex)

/-! ## Numeric rendering and rounding (JS number model) -/

/-- Model of value.toFixed(p) followed by Number(...): exact decimal rounding
to p places.  round is round-half-up; at the precisions used (>= 1 dp) a
binary double cannot be an exact decimal tie, so this agrees with toFixed on
all reachable inputs. -/
def roundToPrec (q : ℚ) (p : Nat) : ℚ := (round (q * 10 ^ p) : ℚ) / 10 ^ p

/-- Least k (searched up to 40) with den dividing 10 to the k; total because
every value reaching toString in the pipeline is a terminating decimal. -/
def pow10Exp (d : Nat) : Nat :=
  ((List.range 40).find? (fun k => 10 ^ k % d == 0)).getD 39

def stripTrailingZeros (cs : List Char) : List Char :=
  (cs.reverse.dropWhile (fun c => c == Char.ofNat 48)).reverse

def padLeftZeros (s : String) (k : Nat) : String :=
  String.mk (List.replicate (k - s.length) (Char.ofNat 48)) ++ s

/-- Model of Number.prototype.toString for a terminating decimal in the
non-exponential range: shortest decimal expansion, trailing zeros dropped,
no zero padding. -/
def numToString (q : ℚ) : String :=
  let k := pow10Exp q.den
  let scaled := q.num.natAbs * 10 ^ k / q.den
  let ip := Nat.repr (scaled / 10 ^ k)
  let fr := String.mk (stripTrailingZeros (padLeftZeros (Nat.repr (scaled % 10 ^ k)) k).data)
  let body := if fr = "" then ip else ip ++ "." ++ fr
  if q.num < 0 then "-" ++ body else body

/-- The rendering data.field?.toString() with empty-string fallback, as used by generateRowHash: an absent value
renders as the empty string; a present value renders via toString (never
empty, so the fallback branch cannot re-trigger on a present value). -/
def optNumString (v : Option ℚ) : String :=
  match v with
  | none => ""
  | some q => numToString q

/-! ## Telemetry normalization and row hashing (src/model/telemetry.ts) -/

/-- precisionConfig from src/config/index.ts with the documented env defaults
HASH_PRECISION_POWER_DP=3, ENERGY_DP=2, TEMP_DP=1, IRR_DP=1. -/
structure PrecisionConfig where
  power : Nat
  energy : Nat
  temp : Nat
  irradiance : Nat
deriving DecidableEq

def precisionConfig : PrecisionConfig :=
  { power := 3, energy := 2, temp := 1, irradiance := 1 }

/-- RawTelemetryInput after zod validation: optional metrics are absent or
finite numbers (the schema rejects NaN and infinities, so the isFinite guard
inside normalizeNumber never fires on validated input). -/
structure RawTelemetryInput where
  siteId : String
  tsUtc : String
  poaIrrWm2 : Option ℚ
  tempC : Option ℚ
  windMps : Option ℚ
  acPowerKw : Option ℚ
  acEnergyKWh : Option ℚ
  status : Option String
  source : String
  uniqKey : Option String
deriving DecidableEq

structure RowHashData where
  siteId : String
  tsUtc : String
  acEnergyKWh : Option ℚ
  acPowerKw : Option ℚ
  poaIrrWm2 : Option ℚ
  tempC : Option ℚ
  status : String
deriving DecidableEq

/-- The deterministic pre-hash string of generateRowHash:
the join of [siteId, tsUtc, energy, power, irradiance, temp, status] on the pipe delimiter, with each
optional number rendered via toString with empty-string fallback. -/
def canonicalRowString (d : RowHashData) : String :=
  String.intercalate "|"
    [d.siteId, d.tsUtc, optNumString d.acEnergyKWh, optNumString d.acPowerKw,
     optNumString d.poaIrrWm2, optNumString d.tempC, d.status]

/-- generateRowHash from src/model/telemetry.ts. -/
def generateRowHash (d : RowHashData) : String := sha256hex (canonicalRowString d)

/-- normalizeNumber: undefined stays undefined, a present (finite) value is
rounded via toFixed(precision) and re-read as a number. -/
def normalizeNumber (value : Option ℚ) (precision : Nat) : Option ℚ :=
  match value with
  | none => none
  | some v => some (roundToPrec v precision)

structure NormalizedTelemetry where
  siteId : String
  tsUtc : String
  poaIrrWm2 : Option ℚ
  tempC : Option ℚ
  windMps : Option ℚ
  acPowerKw : Option ℚ
  acEnergyKWh : Option ℚ
  status : Option String
  source : String
  uniqKey : Option String
  rowHash : String
deriving DecidableEq

/-- normalizeTelemetry from src/model/telemetry.ts.  new Date(input.tsUtc)
followed by toISOString() is the identity on the canonical ISO input strings
the validated schema delivers, so the timestamp passes through. -/
def normalizeTelemetry (input : RawTelemetryInput) : NormalizedTelemetry :=
  let poaIrrWm2 := normalizeNumber input.poaIrrWm2 precisionConfig.irradiance
  let tempC := normalizeNumber input.tempC precisionConfig.temp
  let windMps := normalizeNumber input.windMps precisionConfig.temp
  let acPowerKw := normalizeNumber input.acPowerKw precisionConfig.power
  let acEnergyKWh := normalizeNumber input.acEnergyKWh precisionConfig.energy
  let rowHash := generateRowHash
    { siteId := input.siteId, tsUtc := input.tsUtc,
      acEnergyKWh := acEnergyKWh, acPowerKw := acPowerKw,
      poaIrrWm2 := poaIrrWm2, tempC := tempC,
      status := input.status.getD "" }
  { siteId := input.siteId, tsUtc := input.tsUtc,
    poaIrrWm2 := poaIrrWm2, tempC := tempC, windMps := windMps,
    acPowerKw := acPowerKw, acEnergyKWh := acEnergyKWh,
    status := input.status, source := input.source, uniqKey := input.uniqKey,
    rowHash := rowHash }

/-- input.field ? Math.min(Math.max(input.field, lo), hi) : undefined.
The JavaScript condition is truthiness of the number, so the value 0 takes
the undefined branch exactly like an absent value. -/
def clampNum (v : Option ℚ) (lo hi : ℚ) : Option ℚ :=
  match v with
  | none => none
  | some x => if x = 0 then none else some (min (max x lo) hi)

/-- clampValues from src/model/telemetry.ts. -/
def clampValues (input : RawTelemetryInput) : RawTelemetryInput :=
  { input with
    poaIrrWm2 := clampNum input.poaIrrWm2 0 2000,
    tempC := clampNum input.tempC (-50) 80,
    windMps := clampNum input.windMps 0 100,
    acPowerKw := clampNum input.acPowerKw 0 10000,
    acEnergyKWh := clampNum input.acEnergyKWh 0 1000 }

/-! ## Merkle tree (src/model/merkle.ts) -/

/-- The sort call in the constructor: the lexicographically sorted
permutation of the leaves.  JavaScript default sort compares the strings by
code units, which on these hex/ASCII strings coincides with the String order
used here; insertionSort computes the same sorted permutation. -/
def sortLeaves (leaves : List String) : List String :=
  leaves.insertionSort (fun a b => a ≤ b)

/-- One pairing pass of buildTree: left = level[i], right = level[i+1] with fallback to left
(the truthiness fallback also sends an empty-string right neighbour to left, mirroring JS
truthiness), parent = sha256(left + right). -/
def nextLevel : List String → List String
  | [] => []
  | [a] => [sha256hex (a ++ a)]
  | a :: b :: rest => sha256hex (a ++ (if b = "" then a else b)) :: nextLevel rest

/-- The while loop of buildTree, with fuel: each pass at least halves a level
of length >= 2, so length-many iterations always suffice; the fuel never runs
out on the guard being true. -/
def buildLevelsAux : Nat → List String → List (List String)
  | 0, cur => [cur]
  | fuel + 1, cur =>
    if cur.length > 1 then cur :: buildLevelsAux fuel (nextLevel cur) else [cur]

/-- buildTree: the list of levels from the (already sorted) leaves up to the
root level. -/
def buildTree (leaves : List String) : List (List String) :=
  buildLevelsAux leaves.length leaves

/-- getRoot: this.tree[this.tree.length - 1][0]; indexing past the end of the
level is undefined, hence the Option. -/
def getRoot (tree : List (List String)) : Option String :=
  (tree.getLastD []).head?

/-- The proof-collecting loop of getProof over all levels below the root:
sibling index = idx+1 for even idx, idx-1 for odd; push only when the sibling
index is in range. -/
def collectProof : List (List String) → Nat → List String
  | [], _ => []
  | lvl :: rest, idx =>
    (lvl[(if idx % 2 == 0 then idx + 1 else idx - 1)]?).toList ++ collectProof rest (idx / 2)

/-- getProof on the tree built from the given leaves: locate the leaf in the
sorted leaf level (indexOf), error if absent, then walk the levels below the
root. -/
def getProofOf (leaves : List String) (leaf : String) : Except String (List String) :=
  let sorted := sortLeaves leaves
  match sorted.indexOf? leaf with
  | none => Except.error "Leaf not found in tree"
  | some idx => Except.ok (collectProof (buildTree sorted).dropLast idx)

/-- verifyProof: fold the proof elements into the running hash as
hash = sha256(hash + sibling), then compare with the claimed root. -/
def verifyProof (leaf : String) (proof : List String) (root : String) : Bool :=
  (proof.foldl (fun h sibling => sha256hex (h ++ sibling)) leaf) == root

/-- generateMerkleRoot: root of the tree built over the sorted row hashes. -/
def generateMerkleRoot (rowHashes : List String) : Option String :=
  getRoot (buildTree (sortLeaves rowHashes))

/-! ## Time and list utilities (src/util/index.ts) -/

/-- getDayStart: setUTCHours(0,0,0,0) on an epoch-millisecond instant, i.e.
flooring to the start of the UTC day (emod keeps the remainder nonnegative,
matching the calendar floor for any sign). -/
def getDayStart (ms : Int) : Int := ms - ms.emod 86400000

/-- getDayEnd: setUTCHours(23,59,59,999). -/
def getDayEnd (ms : Int) : Int := getDayStart ms + 86399999

/-- sum = values.reduce((acc, val) => acc + val, 0). -/
def sumList (values : List ℚ) : ℚ := values.foldl (fun acc val => acc + val) 0

/-- The retry loop of retryWithBackoff, indexed by the remaining retries
after the current attempt.  The outcome of the k-th call is supplied by the
oracle f.  Returns the final outcome, the number of calls made, and the list
of backoff delays slept between calls. -/
def retryAux (f : Nat → Except String α) (base attempt : Nat) :
    Nat → Except String α × Nat × List Nat
  | 0 => (f attempt, 1, [])
  | remaining + 1 =>
    match f attempt with
    | Except.ok a => (Except.ok a, 1, [])
    | Except.error _ =>
      let r := retryAux f base (attempt + 1) remaining
      (r.1, r.2.1 + 1, base * 2 ^ attempt :: r.2.2)

/-- retryWithBackoff(fn, maxRetries, baseDelay): attempts 0..maxRetries, delay
baseDelay * 2^attempt before each retry, last error rethrown on exhaustion. -/
def retryWithBackoff (f : Nat → Except String α) (maxRetries base : Nat) :
    Except String α × Nat × List Nat :=
  retryAux f base 0 maxRetries

/-! ## Persistent store model and daily aggregation (src/aggregate/index.ts) -/

structure Site where
  id : String
  name : String
  country : String
  timezone : String
  baselineKgPerKWh : ℚ
deriving DecidableEq

/-- A persisted rawTelemetry row (the Prisma model): timestamps as epoch
milliseconds, optional metrics, and the stored row hash. -/
structure RawTelemetryRow where
  siteId : String
  tsUtcMs : Int
  poaIrrWm2 : Option ℚ
  tempC : Option ℚ
  windMps : Option ℚ
  acPowerKw : Option ℚ
  acEnergyKWh : Option ℚ
  status : Option String
  rowHash : String
deriving DecidableEq

/-- A persisted dailyDigest row.  The cuid primary key is modelled as a
natural-number id; merkleRoot is an Option because generateMerkleRoot can
return no value (empty leaf set). -/
structure DailyDigestRow where
  id : Nat
  siteId : String
  dayUtc : Int
  energyKWh : ℚ
  avoidedTco2e : ℚ
  rows : Nat
  merkleRoot : Option String
  csvUrl : Option String
  jsonUrl : Option String
  anchored : Bool
  adapterTxId : Option String
  txHash : Option String
deriving DecidableEq

structure Store where
  sites : List Site
  records : List RawTelemetryRow
  digests : List DailyDigestRow
deriving DecidableEq

def findSite (store : Store) (siteId : String) : Option Site :=
  store.sites.find? (fun s => s.id == siteId)

/-- prisma.rawTelemetry.findMany filtered to the site and the [dayStart,
dayEnd] window, ordered by tsUtc ascending. -/
def recordsForDay (store : Store) (siteId : String) (dayUtc : Int) : List RawTelemetryRow :=
  ((store.records.filter (fun r =>
      r.siteId == siteId && getDayStart dayUtc ≤ r.tsUtcMs && r.tsUtcMs ≤ getDayEnd dayUtc))).insertionSort
    (fun a b => a.tsUtcMs ≤ b.tsUtcMs)

structure DailyAggregationResult where
  siteId : String
  dayUtc : Int
  energyKWh : ℚ
  avoidedTco2e : ℚ
  rows : Nat
  merkleRoot : Option String
deriving DecidableEq

/-- The computation block of aggregateDaily once the site is known and the
records of the day are at hand: energy sum over present values, the CarbonConverter
line avoidedTco2e = totalEnergyKWh * baselineKgPerKWh / 1000, and the Merkle
root over the row hashes of the day. -/
def computeDailyResult (site : Site) (siteId : String) (dayStart : Int)
    (recs : List RawTelemetryRow) : DailyAggregationResult :=
  let energyValues := recs.filterMap (fun r => r.acEnergyKWh)
  let totalEnergyKWh := sumList energyValues
  let avoidedTco2e := totalEnergyKWh * site.baselineKgPerKWh / 1000
  let rowHashes := recs.map (fun r => r.rowHash)
  { siteId := siteId, dayUtc := dayStart, energyKWh := totalEnergyKWh,
    avoidedTco2e := avoidedTco2e, rows := recs.length,
    merkleRoot := generateMerkleRoot rowHashes }

/-- Upsert the daily digest keyed by (siteId, dayUtc): overwrite the numeric
fields and root when a row exists, otherwise create a fresh row (cuid
modelled as the current digest count) with anchored = false. -/
def upsertDigest (store : Store) (result : DailyAggregationResult) : Store :=
  if store.digests.any (fun g => g.siteId == result.siteId && g.dayUtc == result.dayUtc) then
    { store with digests := store.digests.map (fun g =>
        if g.siteId == result.siteId && g.dayUtc == result.dayUtc then
          { g with energyKWh := result.energyKWh, avoidedTco2e := result.avoidedTco2e,
                   rows := result.rows, merkleRoot := result.merkleRoot }
        else g) }
  else
    { store with digests := store.digests ++
        [{ id := store.digests.length, siteId := result.siteId, dayUtc := result.dayUtc,
           energyKWh := result.energyKWh, avoidedTco2e := result.avoidedTco2e,
           rows := result.rows, merkleRoot := result.merkleRoot,
           csvUrl := none, jsonUrl := none, anchored := false,
           adapterTxId := none, txHash := none }] }

inductive AggError where
  | siteNotFound (siteId : String)
deriving DecidableEq

/-- AggregationService.aggregateDaily: look up the site (unknown site throws,
a configuration error), fetch the records of the day, return null (the no-record
sentinel) when the day is empty — before any Merkle work — and otherwise
compute and upsert the digest. -/
def aggregateDaily (store : Store) (siteId : String) (dayUtc : Int) :
    Except AggError (Option DailyAggregationResult × Store) :=
  let dayStart := getDayStart dayUtc
  match findSite store siteId with
  | none => Except.error (AggError.siteNotFound siteId)
  | some site =>
    let recs := recordsForDay store siteId dayUtc
    if recs.isEmpty then Except.ok (none, store)
    else
      let result := computeDailyResult site siteId dayStart recs
      Except.ok (some result, upsertDigest store result)

/-! ## Anchor service (src/anchor/index.ts) and the POST /v1/anchor route -/

structure AnchorEnv where
  anchorEnabled : Bool
  adapterApiUrl : Option String
  adapterApiKey : Option String
deriving DecidableEq

/-- The successful response body of the adapter. -/
structure AnchorResp where
  adapterTxId : String
  txHash : String
deriving DecidableEq

structure AnchorResult where
  success : Bool
  adapterTxId : Option String
  txHash : Option String
  error : Option String
deriving DecidableEq

/-- AnchorService.anchorDigest.  The adapter call is the oracle: attempt k
either returns a response or fails with a transport error.  Returns the
result together with the number of submission attempts performed and the
backoff delays slept.  Anchoring disabled short-circuits to a fake success;
a missing adapter URL or key returns a failure before any attempt. -/
def anchorDigest (env : AnchorEnv) (oracle : Nat → Except String AnchorResp) :
    AnchorResult × Nat × List Nat :=
  if env.anchorEnabled = false then
    ({ success := true, adapterTxId := some "disabled", txHash := some "disabled",
       error := none }, 0, [])
  else if env.adapterApiUrl.isNone || env.adapterApiKey.isNone then
    ({ success := false, adapterTxId := none, txHash := none,
       error := some "Adapter API not configured" }, 0, [])
  else
    let r := retryWithBackoff oracle 3 1000
    match r.1 with
    | Except.ok resp =>
      ({ success := true, adapterTxId := some resp.adapterTxId,
         txHash := some resp.txHash, error := none }, r.2.1, r.2.2)
    | Except.error e =>
      ({ success := false, adapterTxId := none, txHash := none,
         error := some e }, r.2.1, r.2.2)

/-- prisma.dailyDigest.findUnique on the (siteId, dayUtc) key. -/
def findDigest (store : Store) (siteId : String) (dayUtc : Int) : Option DailyDigestRow :=
  store.digests.find? (fun g => g.siteId == siteId && g.dayUtc == dayUtc)

/-- prisma.dailyDigest.update where id: set anchored and store the external
transaction references. -/
def setAnchored (store : Store) (digestId : Nat) (txId txh : Option String) : Store :=
  { store with digests := store.digests.map (fun g =>
      if g.id == digestId then { g with anchored := true, adapterTxId := txId, txHash := txh }
      else g) }

inductive AnchorRouteResponse where
  | notFound
  | alreadyAnchored (adapterTxId txHash : Option String)
  | anchoredOk (adapterTxId txHash : Option String)
  | anchorFailed (error : Option String)
deriving DecidableEq

/-- The POST /v1/anchor handler body from src/api/admin.ts: 404 when the
digest is missing; an immediate success echoing the stored references when it
is already anchored (no submission); otherwise call anchorDigest and, on
success, persist anchored = true with the returned references.  The third
component counts external submission attempts issued by this call. -/
def anchorRoute (env : AnchorEnv) (oracle : Nat → Except String AnchorResp)
    (store : Store) (siteId : String) (dayUtc : Int) :
    AnchorRouteResponse × Store × Nat :=
  match findDigest store siteId dayUtc with
  | none => (AnchorRouteResponse.notFound, store, 0)
  | some digest =>
    if digest.anchored then
      (AnchorRouteResponse.alreadyAnchored digest.adapterTxId digest.txHash, store, 0)
    else
      let r := anchorDigest env oracle
      if r.1.success then
        (AnchorRouteResponse.anchoredOk r.1.adapterTxId r.1.txHash,
         setAnchored store digest.id r.1.adapterTxId r.1.txHash, r.2.1)
      else
        (AnchorRouteResponse.anchorFailed r.1.error, store, r.2.1)

/-! ## Spec-side rendering (refinement comparison for the canonical string) -/

/-- Modelled from the spec wording, for comparison with the source rendering:
a fixed-decimal string at precision p, i.e. exactly p digits after the point,
zero padded, as toFixed would print. -/
def toFixedString (q : ℚ) (p : Nat) : String :=
  let scaled := round (q * 10 ^ p)
  let ip := Nat.repr (scaled.natAbs / 10 ^ p)
  let fr := padLeftZeros (Nat.repr (scaled.natAbs % 10 ^ p)) p
  let body := if p = 0 then ip else ip ++ "." ++ fr
  if scaled < 0 then "-" ++ body else body

/-- Modelled from the spec wording: absent metric renders as the empty
string, a present metric as a fixed-decimal string at its precision. -/
def optFixedString (v : Option ℚ) (p : Nat) : String :=
  match v with
  | none => ""
  | some q => toFixedString q p

/-- Modelled from the spec wording: the claimed canonical pre-hash string
with fixed-decimal rendering at the configured precisions. -/
def specFixedRowString (d : RowHashData) : String :=
  String.intercalate "|"
    [d.siteId, d.tsUtc, optFixedString d.acEnergyKWh precisionConfig.energy,
     optFixedString d.acPowerKw precisionConfig.power,
     optFixedString d.poaIrrWm2 precisionConfig.irradiance,
     optFixedString d.tempC precisionConfig.temp, d.status]

/-! ## Concrete fixtures -/

def c10store : Store :=
  { sites := [{ id := "PRJ001", name := "Solar Farm Alpha", country := "India",
                timezone := "Asia/Kolkata", baselineKgPerKWh := 708/1000 }],
    records := [], digests := [] }

def zeroTempReading : RawTelemetryInput :=
  { siteId := "PRJ001", tsUtc := "2024-01-15T12:00:00.000Z",
    poaIrrWm2 := none, tempC := some 0, windMps := none, acPowerKw := none,
    acEnergyKWh := none, status := some "OK", source := "http", uniqKey := none }

def missingTempReading : RawTelemetryInput :=
  { zeroTempReading with tempC := none }

def exampleReading : RawTelemetryInput :=
  { siteId := "PRJ001", tsUtc := "2024-01-15T12:00:00.000Z",
    poaIrrWm2 := some (800123456/1000000), tempC := some (25678901/1000000),
    windMps := none, acPowerKw := some (2345678/1000000),
    acEnergyKWh := some (1234567/1000000), status := some "OK",
    source := "http", uniqKey := none }

def zeroPowerReading : RawTelemetryInput :=
  { exampleReading with acPowerKw := some 0 }

def outOfRangeReading : RawTelemetryInput :=
  { siteId := "PRJ001", tsUtc := "2024-01-15T12:00:00.000Z",
    poaIrrWm2 := some 2500, tempC := some (-60), windMps := some 150,
    acPowerKw := some 20000, acEnergyKWh := some 5000, status := none,
    source := "http", uniqKey := none }

/-! ## Claim theorems -/

/-- C10: MerkleTree construction on the empty leaf list succeeds and yields
the single empty level, getRoot on it finds no value, so generateMerkleRoot
of the empty list is not a hex digest; and aggregateDaily guards the empty
case itself by returning the no-record sentinel (and an unchanged store)
before any tree is built. -/
theorem empty_leafset_has_no_root :
    buildTree ([] : List String) = [[]] ∧
    generateMerkleRoot [] = none ∧
    aggregateDaily c10store "PRJ001" 1705276800000 = Except.ok (none, c10store) := by
  refine ⟨rfl, rfl, by with_unfolding_all rfl⟩

set_option maxRecDepth 100000 in
/-- C1 (divergence witness): for the two-leaf tree over ["a", "b"] the
generated proof for leaf "b" is ["a"] and the root is sha256(ab), but
verifyProof folds sha256(b ++ a) — it never accounts for the sibling lying
on the left — so the honestly generated proof fails verification, while the
left leaf "a" still verifies.  This refutes the universal success clause of
the claim on the code as written. -/
theorem generated_merkle_proof_fails_verification :
    getProofOf ["a", "b"] "b" = Except.ok ["a"] ∧
    generateMerkleRoot ["a", "b"] = some (sha256hex ("a" ++ "b")) ∧
    verifyProof "b" ["a"] (sha256hex ("a" ++ "b")) = false ∧
    verifyProof "a" ["b"] (sha256hex ("a" ++ "b")) = true := by
  refine ⟨by with_unfolding_all rfl, by with_unfolding_all rfl,
    by with_unfolding_all rfl, by with_unfolding_all rfl⟩

set_option maxRecDepth 100000 in
/-- C2 (divergence witness): a reading with the present metric value 0 is
coerced to absent by the truthiness test in clampValues, so after clamping
and normalization the zero reading and the missing reading produce the very
same row hash, contradicting the claim that a present zero stays present and
hashes differently from a missing value. -/
theorem zero_reading_collapses_to_missing :
    zeroTempReading.tempC = some 0 ∧
    (clampValues zeroTempReading).tempC = none ∧
    (clampValues missingTempReading).tempC = none ∧
    (normalizeTelemetry (clampValues zeroTempReading)).rowHash
      = (normalizeTelemetry (clampValues missingTempReading)).rowHash := by
  refine ⟨rfl, by with_unfolding_all rfl, by with_unfolding_all rfl,
    by with_unfolding_all rfl⟩

set_option maxRecDepth 100000 in
/-- C6 (examples hold, zero fails): the documented clamp ranges and rounding
precisions act as claimed on the spec examples and on out-of-range values,
but a present zero value is dropped to absent instead of being clamped and
rounded, refuting the universal clause of the claim. -/
theorem clamp_and_round_examples_but_zero_dropped :
    (normalizeTelemetry (clampValues exampleReading)).acEnergyKWh = some (123/100) ∧
    (normalizeTelemetry (clampValues exampleReading)).acPowerKw = some (2346/1000) ∧
    (normalizeTelemetry (clampValues exampleReading)).poaIrrWm2 = some (8001/10) ∧
    (normalizeTelemetry (clampValues exampleReading)).tempC = some (257/10) ∧
    (clampValues outOfRangeReading).poaIrrWm2 = some 2000 ∧
    (clampValues outOfRangeReading).tempC = some (-50) ∧
    (clampValues outOfRangeReading).windMps = some 100 ∧
    (clampValues outOfRangeReading).acPowerKw = some 10000 ∧
    (clampValues outOfRangeReading).acEnergyKWh = some 1000 ∧
    zeroPowerReading.acPowerKw = some 0 ∧
    (clampValues zeroPowerReading).acPowerKw = none := by
  refine ⟨by with_unfolding_all rfl, by with_unfolding_all rfl, by with_unfolding_all rfl,
    by with_unfolding_all rfl, by with_unfolding_all rfl, by with_unfolding_all rfl,
    by with_unfolding_all rfl, by with_unfolding_all rfl, by with_unfolding_all rfl,
    rfl, by with_unfolding_all rfl⟩

/-- C3: the Merkle root only depends on the multiset of leaves — the
constructor sorts the leaf hashes, so any permutation of the leaf list
produces the same root. -/
theorem merkle_root_permutation_invariant (l1 l2 : List String) (h : l1.Perm l2) :
    generateMerkleRoot l1 = generateMerkleRoot l2 := by
  unfold generateMerkleRoot
  suffices hs : sortLeaves l1 = sortLeaves l2 by rw [hs]
  unfold sortLeaves
  have p1 := List.perm_insertionSort (fun a b : String => a ≤ b) l1
  have p2 := List.perm_insertionSort (fun a b : String => a ≤ b) l2
  exact List.eq_of_perm_of_sorted (p1.trans (h.trans p2.symm))
    (List.sorted_insertionSort _ l1) (List.sorted_insertionSort _ l2)

/-- C3 witness: concrete two-element permutation. -/
theorem merkle_root_permutation_invariant_witness :
    (["b", "a"] : List String).Perm ["a", "b"] ∧
    generateMerkleRoot ["b", "a"] = generateMerkleRoot ["a", "b"] :=
  ⟨List.Perm.swap "a" "b" [],
   merkle_root_permutation_invariant ["b", "a"] ["a", "b"] (List.Perm.swap "a" "b" [])⟩

def c4data : RowHashData :=
  { siteId := "PRJ001", tsUtc := "2024-01-15T12:00:00.000Z",
    acEnergyKWh := some (6/5), acPowerKw := none, poaIrrWm2 := none,
    tempC := none, status := "OK" }

set_option maxRecDepth 100000 in
/-- C4 counterexample: 6/5 is a fixed point of energy normalization (a value
the pipeline really produces), yet the canonical pre-hash string renders it
as 1.2 — the default number-to-string conversion — not as the fixed-decimal
1.20 the claim asserts, and consequently the row hash differs from the hash
of the claimed fixed-decimal string. -/
theorem fixed_decimal_rendering_counterexample :
    roundToPrec (6/5) precisionConfig.energy = 6/5 ∧
    canonicalRowString c4data ≠ specFixedRowString c4data ∧
    generateRowHash c4data ≠ sha256hex (specFixedRowString c4data) := by
  refine ⟨by with_unfolding_all rfl, by with_unfolding_all decide,
    by with_unfolding_all decide⟩

/-- C4 amended: the canonical pre-hash string is the pipe-joined sequence of
site id, instant, energy, power, irradiance, temperature and status, where a
present number renders via its shortest decimal representation (trailing
zeros dropped, so 6/5 gives 1.2 and 0 gives 0), an absent number and an
absent status render as the empty string, and the row hash is the SHA-256 of
the UTF-8 bytes of that string in lowercase hex. -/
theorem rowhash_canonical_string_shortest_decimal (d : RowHashData) :
    generateRowHash d = sha256hex
      (d.siteId ++ "|" ++ d.tsUtc ++ "|" ++ optNumString d.acEnergyKWh ++ "|" ++
       optNumString d.acPowerKw ++ "|" ++ optNumString d.poaIrrWm2 ++ "|" ++
       optNumString d.tempC ++ "|" ++ d.status) ∧
    optNumString none = "" ∧
    numToString (6/5) = "1.2" ∧ numToString 0 = "0" := by
  refine ⟨?_, rfl, by with_unfolding_all rfl, by with_unfolding_all rfl⟩
  unfold generateRowHash canonicalRowString
  simp [String.intercalate, String.intercalate.go]

def c5store : Store :=
  { sites := [{ id := "PRJ001", name := "Solar Farm Alpha", country := "India",
                timezone := "Asia/Kolkata", baselineKgPerKWh := 708/1000 }],
    records :=
      [{ siteId := "PRJ001", tsUtcMs := 1705280400000, poaIrrWm2 := none, tempC := none,
         windMps := none, acPowerKw := none, acEnergyKWh := some 1, status := some "OK",
         rowHash := "h1" },
       { siteId := "PRJ001", tsUtcMs := 1705284000000, poaIrrWm2 := none, tempC := none,
         windMps := none, acPowerKw := none, acEnergyKWh := some 2, status := some "OK",
         rowHash := "h2" },
       { siteId := "PRJ001", tsUtcMs := 1705287600000, poaIrrWm2 := none, tempC := none,
         windMps := none, acPowerKw := none, acEnergyKWh := some 3, status := some "OK",
         rowHash := "h3" }],
    digests := [] }

set_option maxRecDepth 100000 in
/-- C5: the avoided-emissions quantity computed by daily aggregation is
exactly total energy times the baseline factor divided by 1000 (hence within
any 1e-9 tolerance), and on the documented scenario — site PRJ001, day
2024-01-15, energies 1, 2, 3 kWh, baseline 0.708 kg per kWh — the digest
carries energyKWh = 6 and avoidedTco2e = 0.004248. -/
theorem daily_avoided_emissions_formula :
    (∀ (site : Site) (siteId : String) (dayStart : Int) (recs : List RawTelemetryRow),
      (computeDailyResult site siteId dayStart recs).avoidedTco2e
        = (computeDailyResult site siteId dayStart recs).energyKWh
            * site.baselineKgPerKWh / 1000 ∧
      |(computeDailyResult site siteId dayStart recs).avoidedTco2e
        - (computeDailyResult site siteId dayStart recs).energyKWh
            * site.baselineKgPerKWh / 1000| ≤ 1 / 1000000000) ∧
    Except.map (fun p => Option.map (fun r => (r.energyKWh, r.avoidedTco2e)) p.1)
        (aggregateDaily c5store "PRJ001" 1705276800000)
      = Except.ok (some ((6 : ℚ), (4248/1000000 : ℚ))) := by
  constructor
  · intro site siteId dayStart recs
    have h : (computeDailyResult site siteId dayStart recs).avoidedTco2e
        = (computeDailyResult site siteId dayStart recs).energyKWh
            * site.baselineKgPerKWh / 1000 := rfl
    refine ⟨h, ?_⟩
    rw [h, sub_self, abs_zero]
    norm_num
  · with_unfolding_all rfl

/-- C7: daily aggregation distinguishes an unknown site from an empty period:
an unknown site fails with the configuration error no matter what records
exist (in particular also over an empty period), while a known site with no
records in the day window returns the no-record sentinel with the store
untouched — not an error. -/
theorem daily_unknown_site_vs_empty_period (store : Store) (siteId : String) (dayUtc : Int) :
    (findSite store siteId = none →
      aggregateDaily store siteId dayUtc = Except.error (AggError.siteNotFound siteId)) ∧
    (∀ site, findSite store siteId = some site →
      recordsForDay store siteId dayUtc = [] →
      aggregateDaily store siteId dayUtc = Except.ok (none, store)) := by
  constructor
  · intro h
    unfold aggregateDaily
    rw [h]
  · intro site h hr
    unfold aggregateDaily
    rw [h, hr]
    rfl

def store7 : Store :=
  { sites := [{ id := "PRJ001", name := "Solar Farm Alpha", country := "India",
                timezone := "Asia/Kolkata", baselineKgPerKWh := 708/1000 }],
    records :=
      [{ siteId := "PRJ001", tsUtcMs := 1705276800000, poaIrrWm2 := none, tempC := none,
         windMps := none, acPowerKw := none, acEnergyKWh := some 1, status := some "OK",
         rowHash := "h1" }],
    digests := [] }

/-- C7 witness: on a concrete store holding site PRJ001 and one record on
2024-01-15, asking for the unknown site GHOST errors while asking for PRJ001
on the record-free day at epoch 0 returns the sentinel. -/
theorem daily_unknown_site_vs_empty_period_witness :
    aggregateDaily store7 "GHOST" 0 = Except.error (AggError.siteNotFound "GHOST") ∧
    aggregateDaily store7 "PRJ001" 0 = Except.ok (none, store7) :=
  ⟨(daily_unknown_site_vs_empty_period store7 "GHOST" 0).1 (by with_unfolding_all rfl),
   (daily_unknown_site_vs_empty_period store7 "PRJ001" 0).2
     { id := "PRJ001", name := "Solar Farm Alpha", country := "India",
       timezone := "Asia/Kolkata", baselineKgPerKWh := 708/1000 }
     (by with_unfolding_all rfl) (by with_unfolding_all rfl)⟩

/-- Every run of the retry loop makes at least one call. -/
theorem retryAux_calls_pos (f : Nat → Except String α) (base : Nat) :
    ∀ (rem attempt : Nat), 1 ≤ (retryAux f base attempt rem).2.1 := by
  intro rem
  induction rem with
  | zero => intro attempt; simp [retryAux]
  | succ n ih =>
    intro attempt
    cases h : f attempt with
    | ok a => simp [retryAux, h]
    | error e => simp [retryAux, h]

/-- The retry loop makes at most rem + 1 calls. -/
theorem retryAux_calls_le (f : Nat → Except String α) (base : Nat) :
    ∀ (rem attempt : Nat), (retryAux f base attempt rem).2.1 ≤ rem + 1 := by
  intro rem
  induction rem with
  | zero => intro attempt; simp [retryAux]
  | succ n ih =>
    intro attempt
    cases h : f attempt with
    | ok a => simp [retryAux, h]
    | error e =>
      simp only [retryAux, h]
      have := ih (attempt + 1)
      omega

/-- The delays slept by the retry loop starting at the given attempt are
base * 2 ^ attempt, base * 2 ^ (attempt+1), ...: one delay per retry, each
double the previous one. -/
theorem retryAux_delays (f : Nat → Except String α) (base : Nat) :
    ∀ (rem attempt : Nat), (retryAux f base attempt rem).2.2
      = (List.range ((retryAux f base attempt rem).2.1 - 1)).map
          (fun i => base * 2 ^ (attempt + i)) := by
  intro rem
  induction rem with
  | zero => intro attempt; simp [retryAux]
  | succ n ih =>
    intro attempt
    cases h : f attempt with
    | ok a => simp [retryAux, h]
    | error e =>
      simp only [retryAux, h]
      have hpos := retryAux_calls_pos f base n (attempt + 1)
      obtain ⟨m, hm⟩ : ∃ m, (retryAux f base (attempt + 1) n).2.1 = m + 1 :=
        ⟨(retryAux f base (attempt + 1) n).2.1 - 1, by omega⟩
      rw [ih (attempt + 1), hm]
      have hf : (fun i => base * 2 ^ (attempt + 1 + i))
          = ((fun i => base * 2 ^ (attempt + i)) ∘ Nat.succ) := by
        funext i
        simp only [Function.comp_apply]
        have h2 : attempt + 1 + i = attempt + (i + 1) := by omega
        rw [h2]
      simp only [Nat.add_sub_cancel, List.range_succ_eq_map, List.map_cons, List.map_map, hf,
        Nat.add_zero]

def env8 : AnchorEnv :=
  { anchorEnabled := true, adapterApiUrl := none, adapterApiKey := some "adapter-key" }

def oracleDown : Nat → Except String AnchorResp := fun _ => Except.error "ECONNREFUSED"

/-- C8: a configuration error (missing adapter endpoint or credentials) is
terminal — anchorDigest reports the failure with zero submission attempts
and no backoff sleeps — while transport failures are retried with bounded
exponential backoff: at most maxRetries + 1 calls overall and the delays
slept between calls double from the fixed base (base * 2 ^ i); with the
values the anchor service passes, at most 4 submission attempts with delays
1000 * 2 ^ i. -/
theorem anchor_config_error_terminal_with_bounded_backoff
    (env : AnchorEnv) (oracle f : Nat → Except String AnchorResp) (maxRetries base : Nat) :
    (env.anchorEnabled = true → (env.adapterApiUrl = none ∨ env.adapterApiKey = none) →
      anchorDigest env oracle
        = ({ success := false, adapterTxId := none, txHash := none,
             error := some "Adapter API not configured" }, 0, [])) ∧
    (retryWithBackoff f maxRetries base).2.1 ≤ maxRetries + 1 ∧
    (retryWithBackoff f maxRetries base).2.2
      = (List.range ((retryWithBackoff f maxRetries base).2.1 - 1)).map
          (fun i => base * 2 ^ i) ∧
    (env.anchorEnabled = true → env.adapterApiUrl ≠ none → env.adapterApiKey ≠ none →
      (anchorDigest env oracle).2.1 ≤ 3 + 1 ∧
      (anchorDigest env oracle).2.2
        = (List.range ((anchorDigest env oracle).2.1 - 1)).map (fun i => 1000 * 2 ^ i)) := by
  refine ⟨?_, ?_, ?_, ?_⟩
  · intro he hcfg
    rcases hcfg with h | h <;> simp [anchorDigest, he, h]
  · exact retryAux_calls_le f base maxRetries 0
  · have := retryAux_delays f base maxRetries 0
    simpa [retryWithBackoff] using this
  · intro he hu hk
    obtain ⟨u, hu2⟩ := Option.ne_none_iff_exists'.mp hu
    obtain ⟨k, hk2⟩ := Option.ne_none_iff_exists'.mp hk
    have hcount : (anchorDigest env oracle).2.1 = (retryWithBackoff oracle 3 1000).2.1 ∧
        (anchorDigest env oracle).2.2 = (retryWithBackoff oracle 3 1000).2.2 := by
      cases hr : (retryWithBackoff oracle 3 1000).1 with
      | ok r => simp [anchorDigest, he, hu2, hk2, hr]
      | error e => simp [anchorDigest, he, hu2, hk2, hr]
    rw [hcount.1, hcount.2]
    refine ⟨retryAux_calls_le oracle 1000 3 0, ?_⟩
    have := retryAux_delays oracle 1000 3 0
    simpa [retryWithBackoff] using this

/-- C8 witness: with anchoring enabled but no adapter URL configured, the
service fails immediately with zero attempts; and a permanently failing
transport is retried at most 4 times with doubling delays. -/
theorem anchor_config_error_terminal_with_bounded_backoff_witness :
    anchorDigest env8 oracleDown
      = ({ success := false, adapterTxId := none, txHash := none,
           error := some "Adapter API not configured" }, 0, []) ∧
    (retryWithBackoff oracleDown 3 1000).2.1 ≤ 3 + 1 ∧
    (retryWithBackoff oracleDown 3 1000).2.2
      = (List.range ((retryWithBackoff oracleDown 3 1000).2.1 - 1)).map
          (fun i => 1000 * 2 ^ i) :=
  ⟨(anchor_config_error_terminal_with_bounded_backoff env8 oracleDown oracleDown 3 1000).1
      rfl (Or.inl rfl),
   (anchor_config_error_terminal_with_bounded_backoff env8 oracleDown oracleDown 3 1000).2.1,
   (anchor_config_error_terminal_with_bounded_backoff env8 oracleDown oracleDown 3 1000).2.2.1⟩

/-- Updating the digest row found by the (siteId, dayUtc) key via its id
leaves it the first match of the key: the update touches neither siteId nor
dayUtc. -/
theorem find?_map_setAnchored (sid : String) (day : Int) (t h : Option String)
    (d : DailyDigestRow) :
    ∀ l : List DailyDigestRow,
      l.find? (fun g => g.siteId == sid && g.dayUtc == day) = some d →
      (l.map (fun g => if g.id == d.id
          then { g with anchored := true, adapterTxId := t, txHash := h } else g)).find?
          (fun g => g.siteId == sid && g.dayUtc == day)
        = some { d with anchored := true, adapterTxId := t, txHash := h } := by
  intro l
  induction l with
  | nil => intro h0; simp [List.find?] at h0
  | cons g rest ih =>
    intro h0
    by_cases hp : (g.siteId == sid && g.dayUtc == day) = true
    · have hg : g = d := by
        simp [List.find?, hp] at h0
        exact h0
      subst hg
      simp [List.find?, hp]
    · simp only [List.find?, hp] at h0
      by_cases hid : (g.id == d.id) = true
      · simpa [List.find?, hid, hp] using ih h0
      · simpa [List.find?, hid, hp] using ih h0

/-- C9: with the digest present and unanchored, a configured environment and
an adapter that accepts the first submission, the first anchor call issues
exactly one external submission, flips the digest to anchored and stores the
returned references; the second anchor call on the resulting store issues no
submission, leaves the store unchanged and merely echoes the stored
references. -/
theorem anchor_twice_issues_single_submission
    (env : AnchorEnv) (oracle : Nat → Except String AnchorResp)
    (store : Store) (siteId : String) (dayUtc : Int)
    (digest : DailyDigestRow) (resp : AnchorResp)
    (hd : findDigest store siteId dayUtc = some digest)
    (hna : digest.anchored = false)
    (hen : env.anchorEnabled = true)
    (hu : env.adapterApiUrl ≠ none)
    (hk : env.adapterApiKey ≠ none)
    (hok : oracle 0 = Except.ok resp) :
    (anchorRoute env oracle store siteId dayUtc).2.2 = 1 ∧
    (anchorRoute env oracle store siteId dayUtc).1
      = AnchorRouteResponse.anchoredOk (some resp.adapterTxId) (some resp.txHash) ∧
    Option.map (fun g => g.anchored)
        (findDigest (anchorRoute env oracle store siteId dayUtc).2.1 siteId dayUtc)
      = some true ∧
    anchorRoute env oracle (anchorRoute env oracle store siteId dayUtc).2.1 siteId dayUtc
      = (AnchorRouteResponse.alreadyAnchored (some resp.adapterTxId) (some resp.txHash),
         (anchorRoute env oracle store siteId dayUtc).2.1, 0) := by
  obtain ⟨u, hu2⟩ := Option.ne_none_iff_exists'.mp hu
  obtain ⟨k, hk2⟩ := Option.ne_none_iff_exists'.mp hk
  have had : anchorDigest env oracle
      = ({ success := true, adapterTxId := some resp.adapterTxId,
           txHash := some resp.txHash, error := none }, 1, []) := by
    simp [anchorDigest, hen, hu2, hk2, retryWithBackoff, retryAux, hok]
  have hroute : anchorRoute env oracle store siteId dayUtc
      = (AnchorRouteResponse.anchoredOk (some resp.adapterTxId) (some resp.txHash),
         setAnchored store digest.id (some resp.adapterTxId) (some resp.txHash), 1) := by
    simp [anchorRoute, hd, hna, had]
  have hfd : findDigest
      (setAnchored store digest.id (some resp.adapterTxId) (some resp.txHash)) siteId dayUtc
      = some { digest with
          anchored := true,
          adapterTxId := some resp.adapterTxId,
          txHash := some resp.txHash } := by
    have := find?_map_setAnchored siteId dayUtc (some resp.adapterTxId) (some resp.txHash)
      digest store.digests hd
    simpa [findDigest, setAnchored] using this
  refine ⟨by rw [hroute], by rw [hroute], ?_, ?_⟩
  · rw [hroute]
    simp [hfd]
  · rw [hroute]
    simp [anchorRoute, hfd]

def env9 : AnchorEnv :=
  { anchorEnabled := true, adapterApiUrl := some "http://adapter.local",
    adapterApiKey := some "adapter-key-123" }

def digest9 : DailyDigestRow :=
  { id := 0, siteId := "PRJ001", dayUtc := 1705276800000, energyKWh := 6,
    avoidedTco2e := 4248/1000000, rows := 3, merkleRoot := some "root",
    csvUrl := none, jsonUrl := none, anchored := false,
    adapterTxId := none, txHash := none }

def store9 : Store := { sites := [], records := [], digests := [digest9] }

def oracle9 : Nat → Except String AnchorResp :=
  fun _ => Except.ok { adapterTxId := "tx-1", txHash := "0xabc" }

/-- C9 witness: the concrete double anchor call on a one-digest store. -/
theorem anchor_twice_issues_single_submission_witness :
    (anchorRoute env9 oracle9 store9 "PRJ001" 1705276800000).2.2 = 1 ∧
    (anchorRoute env9 oracle9 store9 "PRJ001" 1705276800000).1
      = AnchorRouteResponse.anchoredOk (some "tx-1") (some "0xabc") ∧
    Option.map (fun g => g.anchored)
        (findDigest (anchorRoute env9 oracle9 store9 "PRJ001" 1705276800000).2.1
          "PRJ001" 1705276800000) = some true ∧
    anchorRoute env9 oracle9 (anchorRoute env9 oracle9 store9 "PRJ001" 1705276800000).2.1
        "PRJ001" 1705276800000
      = (AnchorRouteResponse.alreadyAnchored (some "tx-1") (some "0xabc"),
         (anchorRoute env9 oracle9 store9 "PRJ001" 1705276800000).2.1, 0) :=
  anchor_twice_issues_single_submission env9 oracle9 store9 "PRJ001" 1705276800000 digest9
    { adapterTxId := "tx-1", txHash := "0xabc" }
    (by with_unfolding_all rfl) rfl rfl (by simp [env9]) (by simp [env9]) rfl

end IotOracle
